import Mathlib

/-!
# Verification of the danswer sync/fence coordination subsystem

Shallow embedding of `backend/danswer/background/celery/tasks/vespa/tasks.py`:
the scheduler-side task generation functions, the monitor (finalizer)
functions, and the per-document worker task, together with the Redis
coordination-store primitives and relational-store helpers they call.

The coordination store (Redis) is modelled as association lists of scalar
keys and set keys plus a dispatched-message queue.  Generation functions are
instrumented to return the ordered trace of coordination-store events they
perform, so that ordering claims (fence written after all taskset inserts
and dispatches) can be stated about real executions.
-/

namespace Danswer

/-- A scalar key/value store plus named sets plus the work queue of
dispatched task messages (the celery broker), shared by all processes. -/
structure CoordState where
  kv : List (String × String)
  sets : List (String × List String)
  queue : List String
deriving Repr, DecidableEq

namespace CoordState

/-- Redis `r.get(key)`. -/
def rget (st : CoordState) (k : String) : Option String :=
  st.kv.lookup k

/-- Redis `r.exists(key)`. -/
def rexists (st : CoordState) (k : String) : Bool :=
  (st.rget k).isSome

/-- Redis `r.set(key, value)`. -/
def rset (st : CoordState) (k v : String) : CoordState :=
  { st with kv := (k, v) :: st.kv.filter (fun p => p.1 ≠ k) }

/-- Redis `r.delete(key)` on a scalar key. -/
def rdel (st : CoordState) (k : String) : CoordState :=
  { st with kv := st.kv.filter (fun p => p.1 ≠ k) }

/-- members of a named set -/
def smembers (st : CoordState) (k : String) : List String :=
  (st.sets.lookup k).getD []

/-- Redis `r.scard(set_key)`. -/
def scard (st : CoordState) (k : String) : Nat :=
  (st.smembers k).length

/-- Redis `r.sadd(set_key, member)`. -/
def sadd (st : CoordState) (k m : String) : CoordState :=
  let cur := st.smembers k
  let cur' := if m ∈ cur then cur else m :: cur
  { st with sets := (k, cur') :: st.sets.filter (fun p => p.1 ≠ k) }

/-- Redis `r.delete(set_key)` on a set key. -/
def sdel (st : CoordState) (k : String) : CoordState :=
  { st with sets := st.sets.filter (fun p => p.1 ≠ k) }

/-- Redis `r.scan_iter(pre + "*")`: all scalar keys starting with `pre`. -/
def scanKeys (st : CoordState) (pre : String) : List String :=
  (st.kv.map Prod.fst).filter (fun k => pre.data.isPrefixOf k.data)

end CoordState

/-!
## Integer parsing

Python's `int(value)` raises `ValueError` unless the string is an optional
sign followed by one or more digits; these helpers model that as `Option`,
structurally over the character list.
-/

/-- Accumulate decimal digits; `none` as soon as a non-digit appears. -/
def parseDigitsAux : List Char → Nat → Option Nat
  | [], acc => some acc
  | c :: cs, acc =>
    if c.isDigit then parseDigitsAux cs (acc * 10 + (c.toNat - 48)) else none

/-- Parse a nonempty all-digit character list as a natural number. -/
def parseDigits : List Char → Option Nat
  | [] => none
  | c :: cs => parseDigitsAux (c :: cs) 0

/-- Parse a decimal natural number, as `int(...)` restricted to ℕ. -/
def parseNat (s : String) : Option Nat :=
  parseDigits s.data

/-- Python's `int(value)`: optional leading minus sign, then digits;
`none` models the `ValueError`. -/
def parseInt (s : String) : Option Int :=
  match s.data with
  | '-' :: cs => (parseDigits cs).map (fun n => -(n : Int))
  | cs => (parseDigits cs).map (fun n => (n : Int))

/-!
## Key naming (fence controller key pairs)

Modelled from the spec: the `RedisConnectorCredentialPair`, `RedisDocumentSet`,
`RedisUserGroup` and `RedisConnectorDeletion` classes of
`danswer/background/celery/celery_redis.py` are not in the provided sources.
Per spec §3/§6, each entity kind owns a fixed string prefix; a fence key is
the prefix followed by `:` followed by the entity id (e.g.
`"connectorsync_fence:42"`), and the id is extractable back from the key by
stripping the prefix and parsing the integer suffix.  The stale-document
(connector-credential-pair) fence is a single global key pair (its accessors
take no id in the call sites of `tasks.py`).
-/

namespace RedisConnectorCredentialPair

/-- Modelled from the spec: the single global stale-document fence key. -/
def get_fence_key : String := "connectorsync_fence"

/-- Modelled from the spec: the single global stale-document taskset key. -/
def get_taskset_key : String := "connectorsync_taskset"

end RedisConnectorCredentialPair

namespace RedisDocumentSet

/-- Modelled from the spec: document-set fence key prefix. -/
def FENCE_PREFIX : String := "documentset_fence:"

/-- Modelled from the spec: document-set fence key for one set id. -/
def fence_key (id : Nat) : String := FENCE_PREFIX ++ toString id

/-- Modelled from the spec: document-set taskset key for one set id. -/
def taskset_key (id : Nat) : String := "documentset_taskset:" ++ toString id

/-- Modelled from the spec: parse the set id back out of a fence key
(strip the prefix, parse the integer suffix; `none` on failure). -/
def get_id_from_fence_key (key : String) : Option Nat :=
  if FENCE_PREFIX.data.isPrefixOf key.data then
    parseNat (String.mk (key.data.drop FENCE_PREFIX.data.length))
  else
    none

end RedisDocumentSet

namespace RedisUserGroup

/-- Modelled from the spec: user-group fence key prefix. -/
def FENCE_PREFIX : String := "usergroup_fence:"

/-- Modelled from the spec: user-group fence key for one group id. -/
def fence_key (id : Nat) : String := FENCE_PREFIX ++ toString id

/-- Modelled from the spec: user-group taskset key for one group id. -/
def taskset_key (id : Nat) : String := "usergroup_taskset:" ++ toString id

/-- Modelled from the spec: parse the group id back out of a fence key. -/
def get_id_from_fence_key (key : String) : Option Nat :=
  if FENCE_PREFIX.data.isPrefixOf key.data then
    parseNat (String.mk (key.data.drop FENCE_PREFIX.data.length))
  else
    none

end RedisUserGroup

namespace RedisConnectorDeletion

/-- Modelled from the spec: connector-deletion fence key prefix. -/
def FENCE_PREFIX : String := "connectordeletion_fence:"

/-- Modelled from the spec: connector-deletion fence key for one cc-pair id. -/
def fence_key (id : Nat) : String := FENCE_PREFIX ++ toString id

/-- Modelled from the spec: connector-deletion taskset key for one cc-pair id. -/
def taskset_key (id : Nat) : String := "connectordeletion_taskset:" ++ toString id

/-- Modelled from the spec: parse the cc-pair id back out of a fence key. -/
def get_id_from_fence_key (key : String) : Option Nat :=
  if FENCE_PREFIX.data.isPrefixOf key.data then
    parseNat (String.mk (key.data.drop FENCE_PREFIX.data.length))
  else
    none

end RedisConnectorDeletion

/-!
## Relational store (data model)

The rows the coordination subsystem reads and mutates.  The underlying query
helpers (`danswer/db/document.py`, `document_set.py`,
`connector_credential_pair.py`, `connector.py`) are not in the provided
sources; each helper below is modelled from the spec's description of the
relational-store interface it consumes.
-/

/-- A document row, as relevant to this core (spec §3). -/
structure DocRow where
  id : String
  needs_sync : Bool
  boost : Int
  hidden : Bool
  /-- the connector-credential-pair this document belongs to (used by the
  stale-document generator, which scopes its query to one pair) -/
  cc_pair_id : Nat
deriving Repr, DecidableEq

/-- A document-set row with its associated cc-pairs and member documents. -/
structure DocumentSetRow where
  id : Nat
  is_up_to_date : Bool
  connector_credential_pairs : List Nat
  doc_ids : List String
deriving Repr, DecidableEq

/-- A user-group row with its member documents. -/
structure UserGroupRow where
  id : Nat
  is_up_to_date : Bool
  doc_ids : List String
deriving Repr, DecidableEq

/-- A connector-credential-pair row. -/
structure CCPairRow where
  id : Nat
  connector_id : Nat
  credential_id : Nat
deriving Repr, DecidableEq

/-- A connector row. -/
structure ConnectorRow where
  id : Nat
deriving Repr, DecidableEq

/-- The relational store state visible to this subsystem. -/
structure DBState where
  documents : List DocRow
  document_sets : List DocumentSetRow
  user_groups : List UserGroupRow
  cc_pairs : List CCPairRow
  connectors : List ConnectorRow
  /-- rows of (index_attempt_id, cc_pair_id) -/
  index_attempts : List (Nat × Nat)
  /-- relationship rows of (document_set_id, connector_id, credential_id) -/
  document_set_cc_pair_rels : List (Nat × Nat × Nat)
  /-- relationship rows of (user_group_id, cc_pair_id) -/
  user_group_cc_pair_rels : List (Nat × Nat)
  /-- deletion failure messages, as (cc_pair_id, message) -/
  deletion_failure_messages : List (Nat × String)
deriving Repr, DecidableEq

namespace DBState

/-- Modelled from the spec: `count_documents_by_needs_sync` — the number of
documents whose `needs_sync` flag is true. -/
def count_documents_by_needs_sync (db : DBState) : Nat :=
  (db.documents.filter (fun d => d.needs_sync)).length

/-- Modelled from the spec: `get_document` — lookup by id. -/
def get_document (db : DBState) (docId : String) : Option DocRow :=
  db.documents.find? (fun d => d.id == docId)

/-- Modelled from the spec: `mark_document_as_synced` — clear the document's
`needs_sync` flag. -/
def mark_document_as_synced (db : DBState) (docId : String) : DBState :=
  { db with documents :=
      db.documents.map (fun d => if d.id == docId then { d with needs_sync := false } else d) }

/-- Modelled from the spec: `get_document_set_by_id`. -/
def get_document_set_by_id (db : DBState) (dsId : Nat) : Option DocumentSetRow :=
  db.document_sets.find? (fun s => s.id == dsId)

/-- Modelled from the spec: `delete_document_set` — delete the set row. -/
def delete_document_set (db : DBState) (dsId : Nat) : DBState :=
  { db with document_sets := db.document_sets.filter (fun s => s.id ≠ dsId) }

/-- Modelled from the spec: `mark_document_set_as_synced` — flip the set's
`is_up_to_date` flag to true. -/
def mark_document_set_as_synced (db : DBState) (dsId : Nat) : DBState :=
  { db with document_sets :=
      db.document_sets.map (fun s => if s.id == dsId then { s with is_up_to_date := true } else s) }

/-- Modelled from the spec: `get_connector_credential_pair_from_id`. -/
def get_connector_credential_pair_from_id (db : DBState) (ccId : Nat) : Option CCPairRow :=
  db.cc_pairs.find? (fun p => p.id == ccId)

/-- The helper `delete_index_attempts` (src `danswer/db/index_attempt.py`): delete all
index-attempt rows for one cc-pair. -/
def delete_index_attempts (db : DBState) (ccId : Nat) : DBState :=
  { db with index_attempts := db.index_attempts.filter (fun a => a.2 ≠ ccId) }

/-- Modelled from the spec: `delete_document_set_cc_pair_relationship__no_commit`
— delete all document-set relationship rows for one (connector, credential). -/
def delete_document_set_cc_pair_relationship (db : DBState) (connId credId : Nat) : DBState :=
  { db with document_set_cc_pair_rels :=
      db.document_set_cc_pair_rels.filter (fun r => ¬(r.2.1 = connId ∧ r.2.2 = credId)) }

/-- Modelled from the spec: `delete_user_group_cc_pair_relationship__no_commit`
(the enterprise capability; on MIT builds the noop fallback runs instead). -/
def delete_user_group_cc_pair_relationship (db : DBState) (ccId : Nat) : DBState :=
  { db with user_group_cc_pair_rels := db.user_group_cc_pair_rels.filter (fun r => r.2 ≠ ccId) }

/-- Modelled from the spec: `delete_connector_credential_pair__no_commit`
— delete the pair row for one (connector, credential). -/
def delete_connector_credential_pair (db : DBState) (connId credId : Nat) : DBState :=
  { db with cc_pairs :=
      db.cc_pairs.filter (fun p => ¬(p.connector_id = connId ∧ p.credential_id = credId)) }

/-- Modelled from the spec: `fetch_connector_by_id`. -/
def fetch_connector_by_id (db : DBState) (connId : Nat) : Option ConnectorRow :=
  db.connectors.find? (fun c => c.id == connId)

/-- The relationship `connector.credentials` — the credentials linked to a connector through
the remaining cc-pair rows. -/
def connector_credentials (db : DBState) (connId : Nat) : List Nat :=
  (db.cc_pairs.filter (fun p => p.connector_id = connId)).map (fun p => p.credential_id)

/-- The call `db_session.delete(connector)` — remove a connector row. -/
def delete_connector (db : DBState) (connId : Nat) : DBState :=
  { db with connectors := db.connectors.filter (fun c => c.id ≠ connId) }

/-- Modelled from the spec: `add_deletion_failure_message` — persist a
human-readable failure message on the connector-credential-pair. -/
def add_deletion_failure_message (db : DBState) (ccId : Nat) (msg : String) : DBState :=
  { db with deletion_failure_messages := (ccId, msg) :: db.deletion_failure_messages }

end DBState

/-!
## Scheduler-side task generation

Each generation function is instrumented to return the ordered trace of the
coordination-store operations it performs; `applyGenEvents` replays a trace
onto a `CoordState` to obtain the post-state.
-/

/-- One coordination-store operation performed during task generation. -/
inductive GenEvent where
  /-- Redis `r.sadd(taskset_key, task_id)` — insert a task id into a fence's taskset -/
  | tasksetInsert (tasksetKey taskId : String)
  /-- Celery `celery_app.send_task(...)` — dispatch one task message to the queue -/
  | dispatch (taskId : String)
  /-- Redis `r.set(fence_key, count)` — write the fence key with the task count -/
  | fenceWrite (fenceKey : String) (count : Nat)
  /-- Redis `r.delete(taskset_key)` — clear a leftover taskset -/
  | tasksetDelete (tasksetKey : String)
deriving Repr, DecidableEq

/-- Apply one generation event to the coordination store. -/
def applyGenEvent (st : CoordState) : GenEvent → CoordState
  | .tasksetInsert k m => st.sadd k m
  | .dispatch t => { st with queue := st.queue ++ [t] }
  | .fenceWrite k c => st.rset k (toString c)
  | .tasksetDelete k => st.sdel k

/-- Replay a trace of generation events onto the coordination store. -/
def applyGenEvents (st : CoordState) (evts : List GenEvent) : CoordState :=
  evts.foldl applyGenEvent st

/-- Modelled from the spec: the per-entity `generate_tasks` body
(`celery_redis.py`, not in the provided sources).  Per spec §4.2/§4.3 it
enumerates the work units (here: the given document ids), inserts each
unit's task id into the entity's taskset and dispatches each unit to the
work queue, returning the total count generated — or `none` if generation
could not proceed (e.g. the entity vanished mid-enumeration), which the
`ok` flag injects. -/
def generate_tasks (tasksetKey : String) (docIds : List String) (ok : Bool) :
    List GenEvent × Option Nat :=
  if ok then
    (docIds.flatMap (fun d => [GenEvent.tasksetInsert tasksetKey d, GenEvent.dispatch d]),
      some docIds.length)
  else
    ([], none)

/-- One iteration of the cc-pair loop in
`try_generate_stale_document_sync_tasks`: run `generate_tasks` for one
cc-pair over its stale documents and accumulate the events and the running
total (`continue` on a `none`/0 result leaves the total unchanged). -/
def staleDocStep (db : DBState) (genOk : Nat → Bool) (acc : List GenEvent × Nat)
    (cc_pair : CCPairRow) : List GenEvent × Nat :=
  match generate_tasks (RedisConnectorCredentialPair.get_taskset_key)
      ((db.documents.filter
        (fun d => d.needs_sync ∧ d.cc_pair_id = cc_pair.id)).map (fun d => d.id))
      (genOk cc_pair.id) with
  | (evts, none) => (acc.1 ++ evts, acc.2)
  | (evts, some n) => (acc.1 ++ evts, acc.2 + n)

/-- The function `try_generate_stale_document_sync_tasks` (src `tasks.py` lines 119–165).
`genOk` injects, per cc-pair, whether that pair's `generate_tasks` call
could proceed.  Returns the event trace and the function's return value. -/
def try_generate_stale_document_sync_tasks (db : DBState) (st : CoordState)
    (genOk : Nat → Bool) : List GenEvent × Option Nat :=
  -- the fence is up, do nothing
  if st.rexists RedisConnectorCredentialPair.get_fence_key then
    ([], none)
  else
    -- delete the taskset
    let evts0 := [GenEvent.tasksetDelete RedisConnectorCredentialPair.get_taskset_key]
    let stale_doc_count := db.count_documents_by_needs_sync
    if stale_doc_count = 0 then
      (evts0, none)
    else
      -- group the docs by cc_pair and generate per pair
      let gen := db.cc_pairs.foldl (staleDocStep db genOk) ([], 0)
      (evts0 ++ gen.1 ++
        [GenEvent.fenceWrite RedisConnectorCredentialPair.get_fence_key gen.2],
        some gen.2)

/-- The function `try_generate_document_set_sync_tasks` (src `tasks.py` lines 168–210).
The `document_set` argument is re-read from the relational store
(`db_session.refresh`) before the up-to-date check. -/
def try_generate_document_set_sync_tasks (db : DBState) (st : CoordState)
    (dsId : Nat) (ok : Bool) : List GenEvent × Option Nat :=
  -- don't generate document set sync tasks if tasks are still pending
  if st.rexists (RedisDocumentSet.fence_key dsId) then
    ([], none)
  else
    match db.get_document_set_by_id dsId with
    | none => ([], none)
    | some document_set =>
      -- don't generate sync tasks if we're up to date
      if document_set.is_up_to_date then
        ([], none)
      else
        let evts0 := [GenEvent.tasksetDelete (RedisDocumentSet.taskset_key dsId)]
        match generate_tasks (RedisDocumentSet.taskset_key dsId) document_set.doc_ids ok with
        | (evts, none) => (evts0 ++ evts, none)
        | (evts, some n) =>
          -- set this only after all tasks have been added
          (evts0 ++ evts ++ [GenEvent.fenceWrite (RedisDocumentSet.fence_key dsId) n],
            some n)

/-- The function `try_generate_user_group_sync_tasks` (src `tasks.py` lines 213–253). -/
def try_generate_user_group_sync_tasks (db : DBState) (st : CoordState)
    (ugId : Nat) (ok : Bool) : List GenEvent × Option Nat :=
  -- don't generate sync tasks if tasks are still pending
  if st.rexists (RedisUserGroup.fence_key ugId) then
    ([], none)
  else
    match db.user_groups.find? (fun g => g.id == ugId) with
    | none => ([], none)
    | some usergroup =>
      if usergroup.is_up_to_date then
        ([], none)
      else
        let evts0 := [GenEvent.tasksetDelete (RedisUserGroup.taskset_key ugId)]
        match generate_tasks (RedisUserGroup.taskset_key ugId) usergroup.doc_ids ok with
        | (evts, none) => (evts0 ++ evts, none)
        | (evts, some n) =>
          -- set this only after all tasks have been added
          (evts0 ++ evts ++ [GenEvent.fenceWrite (RedisUserGroup.fence_key ugId) n],
            some n)

/-!
## Monitor (finalizer) functions

Python's `int(fence_value)` raises `ValueError` on a non-integer string;
this is `String.toInt?` returning `none`.
-/

/-- The function `monitor_connector_taskset` (src `tasks.py` lines 256–274): drain check
for the single global stale-document fence. -/
def monitor_connector_taskset (st : CoordState) : CoordState :=
  match st.rget RedisConnectorCredentialPair.get_fence_key with
  | none => st
  | some fence_value =>
    match parseInt fence_value with
    | none => st  -- "The value is not an integer." logged, entity abandoned
    | some _initial_count =>
      let count := st.scard RedisConnectorCredentialPair.get_taskset_key
      if count = 0 then
        (st.sdel RedisConnectorCredentialPair.get_taskset_key).rdel
          RedisConnectorCredentialPair.get_fence_key
      else
        st

/-- The function `monitor_document_set_taskset` (src `tasks.py` lines 277–323): drain
check and finalization for one document-set fence key found by prefix
scan. -/
def monitor_document_set_taskset (key : String) (st : CoordState) (db : DBState) :
    CoordState × DBState :=
  match RedisDocumentSet.get_id_from_fence_key key with
  | none => (st, db)  -- "could not parse document set id" warning
  | some document_set_id =>
    match st.rget (RedisDocumentSet.fence_key document_set_id) with
    | none => (st, db)
    | some fence_value =>
      match parseInt fence_value with
      | none => (st, db)  -- "The value is not an integer." logged, entity abandoned
      | some _initial_count =>
        let count := st.scard (RedisDocumentSet.taskset_key document_set_id)
        if count > 0 then
          (st, db)
        else
          let db' :=
            match db.get_document_set_by_id document_set_id with
            | none => db
            | some document_set =>
              if document_set.connector_credential_pairs.isEmpty then
                -- if there are no connectors, then delete the document set
                db.delete_document_set document_set_id
              else
                db.mark_document_set_as_synced document_set_id
          (((st.sdel (RedisDocumentSet.taskset_key document_set_id)).rdel
              (RedisDocumentSet.fence_key document_set_id)), db')

/-- Result of one `monitor_connector_deletion_taskset` call: the post
states plus whether the call re-raised an exception. -/
structure DeletionMonitorResult where
  redis : CoordState
  db : DBState
  raised : Bool
deriving Repr, DecidableEq

/-- The function `monitor_connector_deletion_taskset` (src `tasks.py` lines 326–417):
drain check and relational finalization for one connector-deletion fence.
`fault` injects an exception raised during the relational finalization
(carrying the exception text and the stack trace that
`traceback.format_exc()` would produce); on that path the transaction is
rolled back (nothing before `db_session.commit()` is persisted), the
failure message is persisted on the pair, and the exception is re-raised. -/
def monitor_connector_deletion_taskset (key : String) (st : CoordState) (db : DBState)
    (fault : Option (String × String)) : DeletionMonitorResult :=
  match RedisConnectorDeletion.get_id_from_fence_key key with
  | none => ⟨st, db, false⟩  -- id parse warning
  | some cc_pair_id =>
    match st.rget (RedisConnectorDeletion.fence_key cc_pair_id) with
    | none => ⟨st, db, false⟩
    | some fence_value =>
      match parseInt fence_value with
      | none => ⟨st, db, false⟩  -- "The value is not an integer." logged
      | some _initial_count =>
        let count := st.scard (RedisConnectorDeletion.taskset_key cc_pair_id)
        if count > 0 then
          ⟨st, db, false⟩
        else
          match db.get_connector_credential_pair_from_id cc_pair_id with
          | none => ⟨st, db, false⟩
          | some cc_pair =>
            match fault with
            | some (e, stack_trace) =>
              -- transaction rolled back; failure message persisted; re-raise
              let error_message :=
                "Error: " ++ e ++ "\n\nStack Trace:\n" ++ stack_trace
              ⟨st, db.add_deletion_failure_message cc_pair.id error_message, true⟩
            | none =>
              -- clean up the rest of the related Postgres entities
              let db1 := db.delete_index_attempts cc_pair.id
              let db2 := db1.delete_document_set_cc_pair_relationship
                cc_pair.connector_id cc_pair.credential_id
              let db3 := db2.delete_user_group_cc_pair_relationship cc_pair.id
              let db4 := db3.delete_connector_credential_pair
                cc_pair.connector_id cc_pair.credential_id
              -- if there are no credentials left, delete the connector
              let db5 :=
                match db4.fetch_connector_by_id cc_pair.connector_id with
                | none => db4
                | some connector =>
                  if (db4.connector_credentials connector.id).isEmpty then
                    db4.delete_connector connector.id
                  else
                    db4
              ⟨((st.sdel (RedisConnectorDeletion.taskset_key cc_pair_id)).rdel
                  (RedisConnectorDeletion.fence_key cc_pair_id)), db5, false⟩

/-- The document-set portion of the `monitor_vespa_sync` tick (src
`tasks.py` lines 448–449): the scan loop over discovered document-set
fence keys, processed in order. -/
def monitorDocumentSetTasksets (keys : List String) (st : CoordState) (db : DBState) :
    CoordState × DBState :=
  keys.foldl (fun acc k => monitor_document_set_taskset k acc.1 acc.2) (st, db)

/-!
## Worker task (`vespa_metadata_sync_task`)

The task is declared with `max_retries=3`.  Celery's `self.retry` either
schedules a re-execution of the same task after `countdown` seconds (when
`self.request.retries < max_retries`) or raises `MaxRetriesExceededError`,
abandoning the task; `self.request.retries` counts the retries already
performed (0 on the first execution).
-/

/-- The bound `max_retries=3` from the `vespa_metadata_sync_task` decorator
(src `tasks.py` line 479). -/
def VESPA_METADATA_SYNC_MAX_RETRIES : Nat := 3

/-- What one execution of the worker task does at the queue level. -/
inductive TaskOutcome where
  /-- the task function returned this boolean -/
  | completed (value : Bool)
  /-- Celery `self.retry` scheduled the same task again after `countdown` seconds -/
  | retryScheduled (countdown : Nat)
  /-- Celery `self.retry` raised `MaxRetriesExceededError`: the task is abandoned -/
  | abandoned
deriving Repr, DecidableEq

/-- External-interface steps one worker execution performs, in order. -/
inductive WorkerEvent where
  /-- the call `document_index.update(update_requests=[update_request])` -/
  | indexUpdate (docId : String)
  /-- the call `mark_document_as_synced(document_id, db_session)` -/
  | markSynced (docId : String)
deriving Repr, DecidableEq

/-- The task `vespa_metadata_sync_task` (src `tasks.py` lines 474–526).  One
execution, with `retries = self.request.retries`.  `soft` injects a
`SoftTimeLimitExceeded` abort of the body; `updateOk` injects whether the
document-index `update` call raised.  Returns the post relational state,
the queue-level outcome, and the ordered trace of external steps
performed. -/
def vespa_metadata_sync_task (db : DBState) (document_id : String) (retries : Nat)
    (soft : Bool) (updateOk : Bool) : DBState × TaskOutcome × List WorkerEvent :=
  if soft then
    -- SoftTimeLimitExceeded: logged and swallowed; falls through to `return True`
    (db, .completed true, [])
  else
    match db.get_document document_id with
    | none => (db, .completed false, [])
    | some _doc =>
      if updateOk then
        -- update Vespa, then update db last
        (db.mark_document_as_synced document_id, .completed true,
          [WorkerEvent.indexUpdate document_id, WorkerEvent.markSynced document_id])
      else
        -- exception from document_index.update: exponential backoff
        -- from 2^4 to 2^6 ... i.e. 16, 32, 64
        let countdown := 2 ^ (retries + 4)
        if retries < VESPA_METADATA_SYNC_MAX_RETRIES then
          (db, .retryScheduled countdown, [WorkerEvent.indexUpdate document_id])
        else
          (db, .abandoned, [WorkerEvent.indexUpdate document_id])

/-!
## Helper lemmas
-/

/-- Is an event the fence-key count write? -/
def GenEvent.isFenceWrite : GenEvent → Bool
  | .fenceWrite _ _ => true
  | _ => false

/-- Is an event a taskset insertion or a queue dispatch? -/
def GenEvent.isInsertOrDispatch : GenEvent → Bool
  | .tasksetInsert _ _ => true
  | .dispatch _ => true
  | _ => false

/-- No event of the trace writes a fence key. -/
def noFenceWrite (tr : List GenEvent) : Prop :=
  ∀ e ∈ tr, e.isFenceWrite = false

/-- Either the trace never writes a fence key, or its one fence write is
its final event — in particular it comes strictly after every taskset
insertion and every dispatch of the trace. -/
def fenceWriteLast (tr : List GenEvent) : Prop :=
  noFenceWrite tr ∨
    ∃ pre k c, tr = pre ++ [GenEvent.fenceWrite k c] ∧ noFenceWrite pre

/-- An empty relational store, used as a concrete evaluation input. -/
def emptyDB : DBState :=
  { documents := [], document_sets := [], user_groups := [], cc_pairs := [],
    connectors := [], index_attempts := [], document_set_cc_pair_rels := [],
    user_group_cc_pair_rels := [], deletion_failure_messages := [] }

/-- An empty coordination store, used as a concrete evaluation input. -/
def emptySt : CoordState := { kv := [], sets := [], queue := [] }

/-- A coordination store in which all three scheduler-side fences are up,
used as a concrete evaluation input. -/
def allFencesSt : CoordState :=
  { kv := [("connectorsync_fence", "3"), ("documentset_fence:5", "0"),
      ("usergroup_fence:5", "2")],
    sets := [], queue := [] }

theorem noFenceWrite_nil : noFenceWrite [] := by
  intro e he
  simp at he

theorem noFenceWrite_append {l₁ l₂ : List GenEvent}
    (h₁ : noFenceWrite l₁) (h₂ : noFenceWrite l₂) : noFenceWrite (l₁ ++ l₂) := by
  intro e he
  rcases List.mem_append.mp he with h | h
  · exact h₁ e h
  · exact h₂ e h

theorem generate_tasks_noFenceWrite (k : String) (docIds : List String) (ok : Bool) :
    noFenceWrite (generate_tasks k docIds ok).1 := by
  intro e he
  unfold generate_tasks at he
  split at he
  · simp only [List.mem_flatMap, List.mem_cons, List.not_mem_nil, or_false] at he
    obtain ⟨d, -, hd⟩ := he
    rcases hd with rfl | rfl <;> rfl
  · simp at he

theorem staleDocStep_noFenceWrite (db : DBState) (genOk : Nat → Bool)
    (acc : List GenEvent × Nat) (cc_pair : CCPairRow) (h : noFenceWrite acc.1) :
    noFenceWrite (staleDocStep db genOk acc cc_pair).1 := by
  unfold staleDocStep
  have hg := generate_tasks_noFenceWrite RedisConnectorCredentialPair.get_taskset_key
    ((db.documents.filter
      (fun d => d.needs_sync ∧ d.cc_pair_id = cc_pair.id)).map (fun d => d.id))
    (genOk cc_pair.id)
  split
  all_goals rename_i evts res heq
  · exact noFenceWrite_append h (by rw [heq] at hg; exact hg)
  · exact noFenceWrite_append h (by rw [heq] at hg; exact hg)

theorem foldl_staleDocStep_noFenceWrite (db : DBState) (genOk : Nat → Bool)
    (pairs : List CCPairRow) (acc : List GenEvent × Nat) (h : noFenceWrite acc.1) :
    noFenceWrite (pairs.foldl (staleDocStep db genOk) acc).1 := by
  induction pairs generalizing acc with
  | nil => exact h
  | cons p ps ih =>
    exact ih _ (staleDocStep_noFenceWrite db genOk acc p h)

theorem rget_rset_self (st : CoordState) (k v : String) :
    (st.rset k v).rget k = some v := by
  simp [CoordState.rget, CoordState.rset]

theorem lookup_filter_ne_self {β : Type} (l : List (String × β)) (k : String) :
    List.lookup k (l.filter (fun p => p.1 ≠ k)) = none := by
  rw [List.lookup_eq_none_iff]
  intro p hp
  have h2 := (List.mem_filter.mp hp).2
  simp only [ne_eq, decide_not, Bool.not_eq_true', decide_eq_false_iff_not] at h2
  simp only [bne_iff_ne, ne_eq]
  intro hk
  exact h2 hk.symm

theorem rget_rdel_self (st : CoordState) (k : String) :
    (st.rdel k).rget k = none := by
  unfold CoordState.rget CoordState.rdel
  exact lookup_filter_ne_self st.kv k

theorem smembers_sdel_self (st : CoordState) (k : String) :
    (st.sdel k).smembers k = [] := by
  unfold CoordState.smembers CoordState.sdel
  rw [lookup_filter_ne_self st.sets k]
  rfl

theorem applyGenEvents_append (st : CoordState) (l₁ l₂ : List GenEvent) :
    applyGenEvents st (l₁ ++ l₂) = applyGenEvents (applyGenEvents st l₁) l₂ := by
  simp [applyGenEvents, List.foldl_append]

theorem get_document_set_by_id_delete (db : DBState) (i : Nat) :
    (db.delete_document_set i).get_document_set_by_id i = none := by
  unfold DBState.get_document_set_by_id DBState.delete_document_set
  rw [List.find?_eq_none]
  intro x hx
  have h2 := (List.mem_filter.mp hx).2
  simpa using h2

theorem find?_map_mark_synced (l : List DocumentSetRow) (i : Nat) (row : DocumentSetRow)
    (h : l.find? (fun s => s.id == i) = some row) :
    (l.map (fun s => if s.id == i then { s with is_up_to_date := true } else s)).find?
      (fun s => s.id == i) = some { row with is_up_to_date := true } := by
  induction l with
  | nil => simp at h
  | cons a l ih =>
    simp only [List.find?] at h
    simp only [List.map_cons, List.find?]
    cases hab : (a.id == i) with
    | true =>
      simp only [hab] at h
      injection h with h
      subst h
      simp [hab]
    | false =>
      simp only [hab] at h
      simpa [hab] using ih h

theorem get_document_set_by_id_mark (db : DBState) (i : Nat) (row : DocumentSetRow)
    (h : db.get_document_set_by_id i = some row) :
    (db.mark_document_set_as_synced i).get_document_set_by_id i =
      some { row with is_up_to_date := true } := by
  unfold DBState.get_document_set_by_id at h ⊢
  unfold DBState.mark_document_set_as_synced
  exact find?_map_mark_synced db.document_sets i row h

theorem noFenceWrite_tasksetDelete (k : String) :
    noFenceWrite [GenEvent.tasksetDelete k] := by
  intro e he
  simp only [List.mem_singleton] at he
  subst he
  rfl

theorem monitor_document_set_taskset_nonint_noop (st : CoordState) (db : DBState)
    (key : String) (dsId : Nat) (v : String)
    (h1 : RedisDocumentSet.get_id_from_fence_key key = some dsId)
    (h2 : st.rget (RedisDocumentSet.fence_key dsId) = some v)
    (h3 : parseInt v = none) :
    monitor_document_set_taskset key st db = (st, db) := by
  simp [monitor_document_set_taskset, h1, h2, h3]

/-!
## Claim theorems
-/

/-- C2: for every entity (connector-credential-pair stale-doc sync, document
set, user group), if the entity's fence key exists when its generate-tasks
function is invoked, the function returns immediately with no result
(`none`), performs no coordination-store event (empty trace — hence no
taskset entries, no dispatches, and no fence write), and generates no
tasks: the at-most-one-concurrent-sync-per-entity guarantee. -/
theorem C2_generation_noop_when_fence_exists (db : DBState) (st : CoordState)
    (genOk : Nat → Bool) (dsId ugId : Nat) (okDs okUg : Bool) :
    (st.rexists RedisConnectorCredentialPair.get_fence_key = true →
      try_generate_stale_document_sync_tasks db st genOk = ([], none)) ∧
    (st.rexists (RedisDocumentSet.fence_key dsId) = true →
      try_generate_document_set_sync_tasks db st dsId okDs = ([], none)) ∧
    (st.rexists (RedisUserGroup.fence_key ugId) = true →
      try_generate_user_group_sync_tasks db st ugId okUg = ([], none)) := by
  refine ⟨fun h => ?_, fun h => ?_, fun h => ?_⟩
  · simp [try_generate_stale_document_sync_tasks, h]
  · simp [try_generate_document_set_sync_tasks, h]
  · simp [try_generate_user_group_sync_tasks, h]

/-- Witness for C2 evaluated at a concrete store where all three fences
exist: each generation function returns the empty trace and `none`. -/
theorem C2_generation_noop_when_fence_exists_witness :
    try_generate_stale_document_sync_tasks emptyDB allFencesSt (fun _ => true) = ([], none) ∧
    try_generate_document_set_sync_tasks emptyDB allFencesSt 5 true = ([], none) ∧
    try_generate_user_group_sync_tasks emptyDB allFencesSt 5 true = ([], none) :=
  ⟨(C2_generation_noop_when_fence_exists emptyDB allFencesSt (fun _ => true) 5 5
      true true).1 (by decide),
   (C2_generation_noop_when_fence_exists emptyDB allFencesSt (fun _ => true) 5 5
      true true).2.1 (by decide),
   (C2_generation_noop_when_fence_exists emptyDB allFencesSt (fun _ => true) 5 5
      true true).2.2 (by decide)⟩

/-- C5: each monitor drain-check is idempotent after clearing: when the
entity's fence key no longer exists in the coordination store, the
monitor's check returns without error, performs no relational mutation,
and deletes no key — the stale-document monitor, the document-set monitor,
and the connector-deletion monitor all leave both stores exactly as they
were (and the deletion monitor does not raise). -/
theorem C5_drain_check_noop_after_fence_cleared (st : CoordState) (db : DBState)
    (keyDs keyDel : String) (dsId ccId : Nat) (fault : Option (String × String)) :
    (st.rget RedisConnectorCredentialPair.get_fence_key = none →
      monitor_connector_taskset st = st) ∧
    (RedisDocumentSet.get_id_from_fence_key keyDs = some dsId →
      st.rget (RedisDocumentSet.fence_key dsId) = none →
      monitor_document_set_taskset keyDs st db = (st, db)) ∧
    (RedisConnectorDeletion.get_id_from_fence_key keyDel = some ccId →
      st.rget (RedisConnectorDeletion.fence_key ccId) = none →
      monitor_connector_deletion_taskset keyDel st db fault = ⟨st, db, false⟩) := by
  refine ⟨fun h => ?_, fun h1 h2 => ?_, fun h1 h2 => ?_⟩
  · simp [monitor_connector_taskset, h]
  · simp [monitor_document_set_taskset, h1, h2]
  · simp [monitor_connector_deletion_taskset, h1, h2]

/-- Witness for C5 at the empty coordination store: every drain-check is a
no-op a second time around. -/
theorem C5_drain_check_noop_after_fence_cleared_witness :
    monitor_connector_taskset emptySt = emptySt ∧
    monitor_document_set_taskset "documentset_fence:7" emptySt emptyDB = (emptySt, emptyDB) ∧
    monitor_connector_deletion_taskset "connectordeletion_fence:7" emptySt emptyDB none =
      ⟨emptySt, emptyDB, false⟩ :=
  ⟨(C5_drain_check_noop_after_fence_cleared emptySt emptyDB "documentset_fence:7"
      "connectordeletion_fence:7" 7 7 none).1 (by decide),
   (C5_drain_check_noop_after_fence_cleared emptySt emptyDB "documentset_fence:7"
      "connectordeletion_fence:7" 7 7 none).2.1 (by decide) (by decide),
   (C5_drain_check_noop_after_fence_cleared emptySt emptyDB "documentset_fence:7"
      "connectordeletion_fence:7" 7 7 none).2.2 (by decide) (by decide)⟩

/-- C10: when the connector-deletion monitor observes a drained deletion
fence (fence present with an integer value, taskset size zero) but the
connector-credential-pair row is absent from the relational store, it
returns without performing any finalization, without raising, and without
deleting the fence key or the taskset key: both stores are returned
unchanged, so the deletion fence of a vanished pair is never cleared by
the monitor. -/
theorem C10_deletion_monitor_keeps_fence_when_pair_absent (st : CoordState)
    (db : DBState) (key : String) (ccId : Nat) (v : String) (n : Int)
    (fault : Option (String × String))
    (h1 : RedisConnectorDeletion.get_id_from_fence_key key = some ccId)
    (h2 : st.rget (RedisConnectorDeletion.fence_key ccId) = some v)
    (h3 : parseInt v = some n)
    (h4 : st.scard (RedisConnectorDeletion.taskset_key ccId) = 0)
    (h5 : db.get_connector_credential_pair_from_id ccId = none) :
    monitor_connector_deletion_taskset key st db fault = ⟨st, db, false⟩ := by
  simp [monitor_connector_deletion_taskset, h1, h2, h3, h4, h5]

/-- Witness for C10: a drained deletion fence for pair 9 whose relational
row is gone — the monitor leaves the fence in place. -/
theorem C10_deletion_monitor_keeps_fence_when_pair_absent_witness :
    monitor_connector_deletion_taskset "connectordeletion_fence:9"
      { kv := [("connectordeletion_fence:9", "4")], sets := [], queue := [] }
      emptyDB none =
      ⟨{ kv := [("connectordeletion_fence:9", "4")], sets := [], queue := [] },
        emptyDB, false⟩ :=
  C10_deletion_monitor_keeps_fence_when_pair_absent
    { kv := [("connectordeletion_fence:9", "4")], sets := [], queue := [] }
    emptyDB "connectordeletion_fence:9" 9 "4" 4 none
    (by decide) (by decide) (by decide) (by decide) (by decide)

/-- C3: when the connector-deletion monitor observes a drained fence and an
exception is raised during the relational finalization, the transaction is
rolled back — every relational table is exactly as before — a failure
message `"Error: <e>\n\nStack Trace:\n<trace>"` containing the stack trace
is persisted on the connector-credential-pair, the exception is re-raised
(`raised = true`), and the coordination store is untouched: neither the
fence key nor the taskset key is deleted. -/
theorem C3_deletion_failure_rollback_keeps_fence (st : CoordState) (db : DBState)
    (key : String) (ccId : Nat) (v : String) (n : Int) (pair : CCPairRow)
    (e stackTrace : String)
    (h1 : RedisConnectorDeletion.get_id_from_fence_key key = some ccId)
    (h2 : st.rget (RedisConnectorDeletion.fence_key ccId) = some v)
    (h3 : parseInt v = some n)
    (h4 : st.scard (RedisConnectorDeletion.taskset_key ccId) = 0)
    (h5 : db.get_connector_credential_pair_from_id ccId = some pair) :
    monitor_connector_deletion_taskset key st db (some (e, stackTrace)) =
      ⟨st, db.add_deletion_failure_message pair.id
        ("Error: " ++ e ++ "\n\nStack Trace:\n" ++ stackTrace), true⟩ ∧
    (monitor_connector_deletion_taskset key st db (some (e, stackTrace))).redis = st ∧
    (monitor_connector_deletion_taskset key st db (some (e, stackTrace))).raised = true ∧
    (monitor_connector_deletion_taskset key st db (some (e, stackTrace))).db.cc_pairs =
      db.cc_pairs ∧
    (monitor_connector_deletion_taskset key st db (some (e, stackTrace))).db.index_attempts =
      db.index_attempts ∧
    (monitor_connector_deletion_taskset key st db (some (e, stackTrace))).db.document_set_cc_pair_rels =
      db.document_set_cc_pair_rels ∧
    (monitor_connector_deletion_taskset key st db (some (e, stackTrace))).db.user_group_cc_pair_rels =
      db.user_group_cc_pair_rels ∧
    (monitor_connector_deletion_taskset key st db (some (e, stackTrace))).db.connectors =
      db.connectors ∧
    (monitor_connector_deletion_taskset key st db (some (e, stackTrace))).db.deletion_failure_messages =
      (pair.id, "Error: " ++ e ++ "\n\nStack Trace:\n" ++ stackTrace) ::
        db.deletion_failure_messages := by
  have h : monitor_connector_deletion_taskset key st db (some (e, stackTrace)) =
      ⟨st, db.add_deletion_failure_message pair.id
        ("Error: " ++ e ++ "\n\nStack Trace:\n" ++ stackTrace), true⟩ := by
    simp [monitor_connector_deletion_taskset, h1, h2, h3, h4, h5]
  refine ⟨h, ?_, ?_, ?_, ?_, ?_, ?_, ?_, ?_⟩ <;>
    simp [h, DBState.add_deletion_failure_message]

/-- Witness for C3: a drained deletion fence for pair 3 whose finalization
raises — the relational tables survive unchanged, the failure message is
recorded, and the fence key is still present. -/
theorem C3_deletion_failure_rollback_keeps_fence_witness :
    monitor_connector_deletion_taskset "connectordeletion_fence:3"
      { kv := [("connectordeletion_fence:3", "2")], sets := [], queue := [] }
      { emptyDB with cc_pairs := [⟨3, 31, 32⟩], index_attempts := [(100, 3)] }
      (some ("boom", "trace")) =
      ⟨{ kv := [("connectordeletion_fence:3", "2")], sets := [], queue := [] },
        { emptyDB with
          cc_pairs := [⟨3, 31, 32⟩],
          index_attempts := [(100, 3)],
          deletion_failure_messages := [(3, "Error: boom\n\nStack Trace:\ntrace")] },
        true⟩ :=
  (C3_deletion_failure_rollback_keeps_fence
    { kv := [("connectordeletion_fence:3", "2")], sets := [], queue := [] }
    { emptyDB with cc_pairs := [⟨3, 31, 32⟩], index_attempts := [(100, 3)] }
    "connectordeletion_fence:3" 3 "2" 2 ⟨3, 31, 32⟩ "boom" "trace"
    (by decide) (by decide) (by decide) (by decide) (by decide)).1

/-- C4: when the document-set monitor observes a fence (present, integer
value) whose taskset size is zero and the set row exists: if the set has
zero associated connector-credential-pairs the row is deleted entirely (no
row with that id remains), otherwise the row is marked
`is_up_to_date = true`; and in either case both the taskset key and the
fence key are deleted afterwards. -/
theorem C4_document_set_drain_finalization (st : CoordState) (db : DBState)
    (key : String) (dsId : Nat) (v : String) (n : Int) (row : DocumentSetRow)
    (h1 : RedisDocumentSet.get_id_from_fence_key key = some dsId)
    (h2 : st.rget (RedisDocumentSet.fence_key dsId) = some v)
    (h3 : parseInt v = some n)
    (h4 : st.scard (RedisDocumentSet.taskset_key dsId) = 0)
    (h5 : db.get_document_set_by_id dsId = some row) :
    monitor_document_set_taskset key st db =
      ((st.sdel (RedisDocumentSet.taskset_key dsId)).rdel
          (RedisDocumentSet.fence_key dsId),
        if row.connector_credential_pairs.isEmpty then db.delete_document_set dsId
        else db.mark_document_set_as_synced dsId) ∧
    (monitor_document_set_taskset key st db).1.rget
      (RedisDocumentSet.fence_key dsId) = none ∧
    (monitor_document_set_taskset key st db).1.smembers
      (RedisDocumentSet.taskset_key dsId) = [] ∧
    (row.connector_credential_pairs.isEmpty = true →
      (monitor_document_set_taskset key st db).2.get_document_set_by_id dsId = none) ∧
    (row.connector_credential_pairs.isEmpty = false →
      (monitor_document_set_taskset key st db).2.get_document_set_by_id dsId =
        some { row with is_up_to_date := true }) := by
  have h : monitor_document_set_taskset key st db =
      ((st.sdel (RedisDocumentSet.taskset_key dsId)).rdel
          (RedisDocumentSet.fence_key dsId),
        if row.connector_credential_pairs.isEmpty then db.delete_document_set dsId
        else db.mark_document_set_as_synced dsId) := by
    simp [monitor_document_set_taskset, h1, h2, h3, h4, h5]
  refine ⟨h, ?_, ?_, fun hcc => ?_, fun hcc => ?_⟩
  · rw [h]
    exact rget_rdel_self _ _
  · rw [h]
    show (st.sdel (RedisDocumentSet.taskset_key dsId)).smembers
      (RedisDocumentSet.taskset_key dsId) = []
    exact smembers_sdel_self _ _
  · rw [h]
    simp only [hcc, if_true]
    exact get_document_set_by_id_delete db dsId
  · rw [h]
    simp only [hcc, if_false]
    exact get_document_set_by_id_mark db dsId row h5

/-- Witness for C4 exercising both branches: set 8 has no associated
cc-pairs and is deleted entirely; set 7 has one cc-pair and is marked up
to date; both times the coordination keys are removed. -/
theorem C4_document_set_drain_finalization_witness :
    (monitor_document_set_taskset "documentset_fence:8"
        { kv := [("documentset_fence:8", "0")], sets := [], queue := [] }
        { emptyDB with document_sets := [⟨8, false, [], []⟩] }).2.get_document_set_by_id
      8 = none ∧
    (monitor_document_set_taskset "documentset_fence:7"
        { kv := [("documentset_fence:7", "3")], sets := [], queue := [] }
        { emptyDB with
          document_sets := [⟨7, false, [21], ["d1"]⟩] }).2.get_document_set_by_id 7 =
      some ⟨7, true, [21], ["d1"]⟩ ∧
    (monitor_document_set_taskset "documentset_fence:7"
        { kv := [("documentset_fence:7", "3")], sets := [], queue := [] }
        { emptyDB with
          document_sets := [⟨7, false, [21], ["d1"]⟩] }).1.rget "documentset_fence:7" =
      none :=
  ⟨(C4_document_set_drain_finalization
      { kv := [("documentset_fence:8", "0")], sets := [], queue := [] }
      { emptyDB with document_sets := [⟨8, false, [], []⟩] }
      "documentset_fence:8" 8 "0" 0 ⟨8, false, [], []⟩
      (by decide) (by decide) (by decide) (by decide) (by decide)).2.2.2.1 (by decide),
   (C4_document_set_drain_finalization
      { kv := [("documentset_fence:7", "3")], sets := [], queue := [] }
      { emptyDB with document_sets := [⟨7, false, [21], ["d1"]⟩] }
      "documentset_fence:7" 7 "3" 3 ⟨7, false, [21], ["d1"]⟩
      (by decide) (by decide) (by decide) (by decide) (by decide)).2.2.2.2 (by decide),
   (C4_document_set_drain_finalization
      { kv := [("documentset_fence:7", "3")], sets := [], queue := [] }
      { emptyDB with document_sets := [⟨7, false, [21], ["d1"]⟩] }
      "documentset_fence:7" 7 "3" 3 ⟨7, false, [21], ["d1"]⟩
      (by decide) (by decide) (by decide) (by decide) (by decide)).2.1⟩

/-- C9: a fence value that cannot be parsed as an integer abandons
processing of that one entity only — the document-set monitor and the
connector-deletion monitor each return both stores unchanged (no key
deletion, no relational mutation, no raise), and in the monitor tick's
document-set scan loop the bad entity's step is skipped while every other
discovered key in the same tick is still processed exactly as if the bad
key were not present. -/
theorem C9_nonint_fence_value_isolated (st : CoordState) (db : DBState)
    (keyDs keyDel : String) (dsId ccId : Nat) (vDs vDel : String)
    (fault : Option (String × String)) (l₁ l₂ : List String) :
    (RedisDocumentSet.get_id_from_fence_key keyDs = some dsId →
      st.rget (RedisDocumentSet.fence_key dsId) = some vDs →
      parseInt vDs = none →
      monitor_document_set_taskset keyDs st db = (st, db)) ∧
    (RedisConnectorDeletion.get_id_from_fence_key keyDel = some ccId →
      st.rget (RedisConnectorDeletion.fence_key ccId) = some vDel →
      parseInt vDel = none →
      monitor_connector_deletion_taskset keyDel st db fault = ⟨st, db, false⟩) ∧
    (RedisDocumentSet.get_id_from_fence_key keyDs = some dsId →
      (monitorDocumentSetTasksets l₁ st db).1.rget
        (RedisDocumentSet.fence_key dsId) = some vDs →
      parseInt vDs = none →
      monitorDocumentSetTasksets (l₁ ++ keyDs :: l₂) st db =
        monitorDocumentSetTasksets (l₁ ++ l₂) st db) := by
  refine ⟨fun h1 h2 h3 => monitor_document_set_taskset_nonint_noop st db keyDs dsId vDs h1 h2 h3,
    fun h1 h2 h3 => ?_, fun h1 h2 h3 => ?_⟩
  · simp [monitor_connector_deletion_taskset, h1, h2, h3]
  · have hmid := monitor_document_set_taskset_nonint_noop
      (monitorDocumentSetTasksets l₁ st db).1 (monitorDocumentSetTasksets l₁ st db).2
      keyDs dsId vDs h1 h2 h3
    unfold monitorDocumentSetTasksets at hmid ⊢
    rw [List.foldl_append, List.foldl_append, List.foldl_cons]
    rw [hmid]

/-- Witness for C9: in a tick discovering set 6 (fence value `"oops"`, not
an integer) followed by drained set 8, set 6 is left untouched while set 8
is still finalized (its empty-set row deleted and its fence removed). -/
theorem C9_nonint_fence_value_isolated_witness :
    monitorDocumentSetTasksets ["documentset_fence:6", "documentset_fence:8"]
      { kv := [("documentset_fence:6", "oops"), ("documentset_fence:8", "0")],
        sets := [], queue := [] }
      { emptyDB with document_sets := [⟨8, false, [], []⟩] } =
    monitorDocumentSetTasksets ["documentset_fence:8"]
      { kv := [("documentset_fence:6", "oops"), ("documentset_fence:8", "0")],
        sets := [], queue := [] }
      { emptyDB with document_sets := [⟨8, false, [], []⟩] } :=
  ((C9_nonint_fence_value_isolated
    { kv := [("documentset_fence:6", "oops"), ("documentset_fence:8", "0")],
      sets := [], queue := [] }
    { emptyDB with document_sets := [⟨8, false, [], []⟩] }
    "documentset_fence:6" "connectordeletion_fence:1" 6 1 "oops" "x" none
    [] ["documentset_fence:8"]).2.2 (by decide) (by decide) (by decide))

/-- C6: for a document set that is not up to date and has no existing
fence, when task generation proceeds it returns `some` of the generated
count — including zero — and the scheduler still ends the trace with a
fence write of that count, so replaying the execution leaves the fence key
holding the count: a sync with zero generated tasks produces a fence of
value `"0"` that the monitor can finalize. -/
theorem C6_zero_task_sync_still_writes_fence (db : DBState) (st : CoordState)
    (dsId : Nat) (row : DocumentSetRow)
    (h1 : st.rexists (RedisDocumentSet.fence_key dsId) = false)
    (h2 : db.get_document_set_by_id dsId = some row)
    (h3 : row.is_up_to_date = false) :
    (try_generate_document_set_sync_tasks db st dsId true).2 =
      some row.doc_ids.length ∧
    (applyGenEvents st (try_generate_document_set_sync_tasks db st dsId true).1).rget
      (RedisDocumentSet.fence_key dsId) =
      some (toString row.doc_ids.length) := by
  have hres : try_generate_document_set_sync_tasks db st dsId true =
      ([GenEvent.tasksetDelete (RedisDocumentSet.taskset_key dsId)] ++
        (row.doc_ids.flatMap (fun d =>
          [GenEvent.tasksetInsert (RedisDocumentSet.taskset_key dsId) d,
            GenEvent.dispatch d]) ++
          [GenEvent.fenceWrite (RedisDocumentSet.fence_key dsId) row.doc_ids.length]),
        some row.doc_ids.length) := by
    simp [try_generate_document_set_sync_tasks, h1, h2, h3, generate_tasks]
  refine ⟨by rw [hres], ?_⟩
  rw [hres]
  rw [show ([GenEvent.tasksetDelete (RedisDocumentSet.taskset_key dsId)] ++
      (row.doc_ids.flatMap (fun d =>
        [GenEvent.tasksetInsert (RedisDocumentSet.taskset_key dsId) d,
          GenEvent.dispatch d]) ++
        [GenEvent.fenceWrite (RedisDocumentSet.fence_key dsId) row.doc_ids.length])) =
    (([GenEvent.tasksetDelete (RedisDocumentSet.taskset_key dsId)] ++
      row.doc_ids.flatMap (fun d =>
        [GenEvent.tasksetInsert (RedisDocumentSet.taskset_key dsId) d,
          GenEvent.dispatch d])) ++
      [GenEvent.fenceWrite (RedisDocumentSet.fence_key dsId) row.doc_ids.length])
    from (List.append_assoc _ _ _).symm]
  rw [applyGenEvents_append]
  exact rget_rset_self _ _ _

/-- Witness for C6 at a document set with zero member documents: the
generation returns `some 0` and the fence key ends up holding `"0"`. -/
theorem C6_zero_task_sync_still_writes_fence_witness :
    (try_generate_document_set_sync_tasks
      { emptyDB with document_sets := [⟨4, false, [], []⟩] } emptySt 4 true).2 =
      some 0 ∧
    (applyGenEvents emptySt
      (try_generate_document_set_sync_tasks
        { emptyDB with document_sets := [⟨4, false, [], []⟩] } emptySt 4 true).1).rget
      (RedisDocumentSet.fence_key 4) = some "0" :=
  C6_zero_task_sync_still_writes_fence
    { emptyDB with document_sets := [⟨4, false, [], []⟩] } emptySt 4
    ⟨4, false, [], []⟩ (by decide) (by decide) (by decide)

/-- C7: for the per-document worker task, an exception that is not a
soft-time-limit abort (here: the document-index update raising) schedules
a retry of the same task with countdown `2 ^ (retries + 4)` seconds — 16,
32 and 64 seconds for the first three executions — and only while the
retry count is below the declared maximum of 3; on the execution after the
third retry the task is abandoned rather than retried. -/
theorem C7_worker_retry_backoff_bounded (db : DBState) (docId : String)
    (retries : Nat) (doc : DocRow)
    (h : db.get_document docId = some doc) :
    ((vespa_metadata_sync_task db docId retries false false).2.1 =
      if retries < VESPA_METADATA_SYNC_MAX_RETRIES then
        TaskOutcome.retryScheduled (2 ^ (retries + 4))
      else TaskOutcome.abandoned) ∧
    (vespa_metadata_sync_task db docId 0 false false).2.1 =
      TaskOutcome.retryScheduled 16 ∧
    (vespa_metadata_sync_task db docId 1 false false).2.1 =
      TaskOutcome.retryScheduled 32 ∧
    (vespa_metadata_sync_task db docId 2 false false).2.1 =
      TaskOutcome.retryScheduled 64 ∧
    (vespa_metadata_sync_task db docId 3 false false).2.1 =
      TaskOutcome.abandoned := by
  refine ⟨?_, ?_, ?_, ?_, ?_⟩ <;>
    simp [vespa_metadata_sync_task, h, VESPA_METADATA_SYNC_MAX_RETRIES]
  split <;> rfl

/-- Witness for C7 on a one-document store: backoffs 16/32/64 then
abandonment at the retry bound. -/
theorem C7_worker_retry_backoff_bounded_witness :
    (vespa_metadata_sync_task
      { emptyDB with documents := [⟨"d1", true, 1, false, 2⟩] } "d1" 0 false
      false).2.1 = TaskOutcome.retryScheduled 16 ∧
    (vespa_metadata_sync_task
      { emptyDB with documents := [⟨"d1", true, 1, false, 2⟩] } "d1" 3 false
      false).2.1 = TaskOutcome.abandoned :=
  ⟨(C7_worker_retry_backoff_bounded
      { emptyDB with documents := [⟨"d1", true, 1, false, 2⟩] } "d1" 0
      ⟨"d1", true, 1, false, 2⟩ (by decide)).2.1,
   (C7_worker_retry_backoff_bounded
      { emptyDB with documents := [⟨"d1", true, 1, false, 2⟩] } "d1" 3
      ⟨"d1", true, 1, false, 2⟩ (by decide)).2.2.2.2⟩

/-- C8: in every execution of the per-document worker task the relational
`needs_sync` clear (`mark_document_as_synced`) happens only after a
successful document-index update: when the index update raised the
relational store is returned unchanged and no `markSynced` step occurs,
and whenever a `markSynced` step occurs the trace is exactly the
successful `indexUpdate` followed by `markSynced`, with the document
marked synced. -/
theorem C8_mark_synced_only_after_index_update (db : DBState) (docId : String)
    (retries : Nat) (soft updateOk : Bool) :
    (updateOk = false →
      (vespa_metadata_sync_task db docId retries soft updateOk).1 = db ∧
      WorkerEvent.markSynced docId ∉
        (vespa_metadata_sync_task db docId retries soft updateOk).2.2) ∧
    (WorkerEvent.markSynced docId ∈
        (vespa_metadata_sync_task db docId retries soft updateOk).2.2 →
      updateOk = true ∧
      (vespa_metadata_sync_task db docId retries soft updateOk).2.2 =
        [WorkerEvent.indexUpdate docId, WorkerEvent.markSynced docId] ∧
      (vespa_metadata_sync_task db docId retries soft updateOk).1 =
        db.mark_document_as_synced docId) := by
  unfold vespa_metadata_sync_task
  cases soft with
  | true => simp
  | false =>
    cases hdoc : db.get_document docId with
    | none => simp
    | some doc =>
      cases updateOk with
      | true => simp
      | false =>
        dsimp only
        simp only [Bool.false_eq_true, if_false]
        refine ⟨fun _ => ⟨?_, ?_⟩, fun hmem => ?_⟩
        · split <;> rfl
        · split <;> simp
        · exfalso
          revert hmem
          split <;> simp

/-- Witness for C8: with a failing index update the document stays
`needs_sync`; on the success path the trace is update-then-mark. -/
theorem C8_mark_synced_only_after_index_update_witness :
    (vespa_metadata_sync_task
      { emptyDB with documents := [⟨"d2", true, 0, false, 1⟩] } "d2" 0 false
      false).1 = { emptyDB with documents := [⟨"d2", true, 0, false, 1⟩] } ∧
    ((vespa_metadata_sync_task
        { emptyDB with documents := [⟨"d2", true, 0, false, 1⟩] } "d2" 0 false
        true).2.2 = [WorkerEvent.indexUpdate "d2", WorkerEvent.markSynced "d2"] ∧
      (vespa_metadata_sync_task
        { emptyDB with documents := [⟨"d2", true, 0, false, 1⟩] } "d2" 0 false
        true).1 =
        ({ emptyDB with
          documents := [⟨"d2", true, 0, false, 1⟩] } : DBState).mark_document_as_synced
          "d2") :=
  ⟨((C8_mark_synced_only_after_index_update
      { emptyDB with documents := [⟨"d2", true, 0, false, 1⟩] } "d2" 0 false
      false).1 (by decide)).1,
   ((C8_mark_synced_only_after_index_update
      { emptyDB with documents := [⟨"d2", true, 0, false, 1⟩] } "d2" 0 false
      true).2 (by decide)).2⟩

/-- C1: for every scheduler generation path (stale-document sync,
document-set sync, user-group sync) and all inputs, the event trace of the
generation function either contains no fence write at all, or its single
fence write is the trace's final event — so the write of the fence key
carrying the task count happens strictly after every taskset insertion and
every queue dispatch of that execution, and no execution writes the fence
before generation is complete. -/
theorem C1_fence_write_strictly_after_generation (db : DBState) (st : CoordState)
    (genOk : Nat → Bool) (dsId ugId : Nat) (okDs okUg : Bool) :
    fenceWriteLast (try_generate_stale_document_sync_tasks db st genOk).1 ∧
    fenceWriteLast (try_generate_document_set_sync_tasks db st dsId okDs).1 ∧
    fenceWriteLast (try_generate_user_group_sync_tasks db st ugId okUg).1 := by
  refine ⟨?_, ?_, ?_⟩
  · unfold try_generate_stale_document_sync_tasks
    split
    · exact Or.inl noFenceWrite_nil
    · dsimp only
      split
      · exact Or.inl (noFenceWrite_tasksetDelete _)
      · exact Or.inr ⟨_, _, _, rfl,
          noFenceWrite_append (noFenceWrite_tasksetDelete _)
            (foldl_staleDocStep_noFenceWrite db genOk db.cc_pairs ([], 0)
              noFenceWrite_nil)⟩
  · unfold try_generate_document_set_sync_tasks
    split
    · exact Or.inl noFenceWrite_nil
    · split
      · exact Or.inl noFenceWrite_nil
      · rename_i document_set hds
        split
        · exact Or.inl noFenceWrite_nil
        · dsimp only
          split
          all_goals rename_i evts res heq
          · refine Or.inl (noFenceWrite_append (noFenceWrite_tasksetDelete _) ?_)
            have hg := generate_tasks_noFenceWrite
              (RedisDocumentSet.taskset_key dsId) document_set.doc_ids okDs
            rw [heq] at hg
            exact hg
          · refine Or.inr ⟨_, _, _, rfl,
              noFenceWrite_append (noFenceWrite_tasksetDelete _) ?_⟩
            have hg := generate_tasks_noFenceWrite
              (RedisDocumentSet.taskset_key dsId) document_set.doc_ids okDs
            rw [heq] at hg
            exact hg
  · unfold try_generate_user_group_sync_tasks
    split
    · exact Or.inl noFenceWrite_nil
    · split
      · exact Or.inl noFenceWrite_nil
      · rename_i usergroup hug
        split
        · exact Or.inl noFenceWrite_nil
        · dsimp only
          split
          all_goals rename_i evts res heq
          · refine Or.inl (noFenceWrite_append (noFenceWrite_tasksetDelete _) ?_)
            have hg := generate_tasks_noFenceWrite
              (RedisUserGroup.taskset_key ugId) usergroup.doc_ids okUg
            rw [heq] at hg
            exact hg
          · refine Or.inr ⟨_, _, _, rfl,
              noFenceWrite_append (noFenceWrite_tasksetDelete _) ?_⟩
            have hg := generate_tasks_noFenceWrite
              (RedisUserGroup.taskset_key ugId) usergroup.doc_ids okUg
            rw [heq] at hg
            exact hg

/-- Witness for C1 at a concrete one-document document set: the generated
trace satisfies the fence-write-last property. -/
theorem C1_fence_write_strictly_after_generation_witness :
    fenceWriteLast (try_generate_document_set_sync_tasks
      { emptyDB with document_sets := [⟨2, false, [11], ["da", "db"]⟩] }
      emptySt 2 true).1 :=
  (C1_fence_write_strictly_after_generation
    { emptyDB with document_sets := [⟨2, false, [11], ["da", "db"]⟩] }
    emptySt (fun _ => true) 2 2 true true).2.1

end Danswer
